import Mathlib

/-
Shallow embedding of the lead-azul WhatsApp gateway core:
the session registry and credential debouncer of
src/backend/src/providers/WhatsApp/Implementations/whaileys.ts,
the hybrid key store of src/backend/src/services/WppKeyServices
(StoreWppSessionKeys.ts / GetWppSessionKeys.ts) over the Redis layer
(libs/redisStore.ts) and the WppKeys table (models/WppKey.ts and its
migration), the message filter and normalization helpers of both provider
implementations (whaileys.ts and wwebjs), the contact upsert of
src/backend/src/services/ContactServices/CreateOrUpdateContactService.ts,
and the ack handler of src/backend/src/handlers/handleWhatsappEvents.ts.

External collaborators (the network socket, Sequelize, Redis, the event
loop clock) are modelled as explicit oracles / state components passed to
the embedded functions.  JSON serialization (JSON.stringify/parse with
BufferJSON.replacer/reviver) is an inverse pair on the values the key
store handles, so stored values are carried verbatim.
-/

namespace LeadAzul

/-! ## Key store: libs/redisStore.ts -/

/-- `REDIS_SESSION_TTL = 604800` (7 days), libs/redisStore.ts. -/
def REDIS_SESSION_TTL : Nat := 604800

/-- One Redis entry as written by `setex key ttl value`: the value plus its
absolute expiry instant (`now + ttl`). -/
structure RedisEntry where
  key : String
  value : String
  expiresAt : Nat
deriving Repr, DecidableEq

/-- `redisClient.setex(key, ttl, data)`: replaces any entry for `key` and
stores `data` with expiry `now + ttl`. -/
def redisSetex (r : List RedisEntry) (key : String) (ttl : Nat) (value : String)
    (now : Nat) : List RedisEntry :=
  (r.filter (fun e => ! (e.key == key))) ++ [⟨key, value, now + ttl⟩]

/-- `redisClient.get(key)` at instant `now`: the stored value while it has not
expired, otherwise nothing (`getFromRedis` returns `null`). -/
def redisGet (r : List RedisEntry) (key : String) (now : Nat) : Option String :=
  (r.find? (fun e => e.key == key && decide (now < e.expiresAt))).map (·.value)

/-! ## Key store: models/WppKey.ts and its migration

The `WppKeys` table has columns `connectionId`, `type`, `keyId`, `value`
(no `deviceId` column) and a unique index on
`(connectionId, type, keyId)` (`wpp_keys_connection_type_key_unique`). -/

/-- One row of the `WppKeys` table.  `ty` is the `type` column. -/
structure WppKeyRecord where
  connectionId : Nat
  ty : String
  keyId : String
  value : String
deriving Repr, DecidableEq

/-- The unique-index predicate `(connectionId, type, keyId)` of `WppKeys`. -/
def wppKeyMatches (kr : WppKeyRecord) (c : Nat) (ty keyId : String) : Bool :=
  kr.connectionId == c && kr.ty == ty && kr.keyId == keyId

/-- `WppKey.upsert({connectionId, type, keyId, value})`: replaces the row
matching the unique index `(connectionId, type, keyId)`, inserting if none. -/
def dbUpsert (db : List WppKeyRecord) (c : Nat) (ty keyId value : String) :
    List WppKeyRecord :=
  (db.filter (fun kr => ! wppKeyMatches kr c ty keyId)) ++ [⟨c, ty, keyId, value⟩]

/-- `WppKey.findOne({where: {connectionId, type, keyId}})`. -/
def dbFind (db : List WppKeyRecord) (c : Nat) (ty keyId : String) : Option String :=
  (db.find? (fun kr => wppKeyMatches kr c ty keyId)).map (·.value)

/-! ## Key store: WppKeyServices -/

/-- `REDIS_KEY_TYPES`, identical in StoreWppSessionKeys.ts and
GetWppSessionKeys.ts. -/
def REDIS_KEY_TYPES : List String := ["session", "sender-keys", "sender-key-memory"]

/-- The Redis key `wpp:${connectionId}:${deviceId}:${type}:${id}`. -/
def redisKey (connectionId deviceId : Nat) (ty id : String) : String :=
  "wpp:" ++ toString connectionId ++ ":" ++ toString deviceId ++ ":" ++ ty ++ ":" ++ id

/-- Combined persistence state behind the key services: the Redis cache and
the `WppKeys` table. -/
structure KeyStoreState where
  redis : List RedisEntry
  db : List WppKeyRecord
deriving Repr, DecidableEq

/-- The empty persistence state. -/
def emptyKeyStore : KeyStoreState := ⟨[], []⟩

/-- `StoreWppSessionKeys({connectionId, deviceId, type, id, value})` at
instant `now`: hot types go to Redis under the device-scoped key with the
7-day TTL, every other type is upserted into `WppKeys` (without `deviceId`). -/
def StoreWppSessionKeys (s : KeyStoreState) (now : Nat)
    (connectionId deviceId : Nat) (ty id value : String) : KeyStoreState :=
  if REDIS_KEY_TYPES.contains ty then
    { s with redis :=
        redisSetex s.redis (redisKey connectionId deviceId ty id) REDIS_SESSION_TTL value now }
  else
    { s with db := dbUpsert s.db connectionId ty id value }

/-- `GetWppSessionKeys({connectionId, deviceId, type, ids})` at instant `now`:
returns the mapping `id → value` restricted to the ids that exist; missing
ids are simply absent.  Hot types read Redis, everything else reads `WppKeys`. -/
def GetWppSessionKeys (s : KeyStoreState) (now : Nat)
    (connectionId deviceId : Nat) (ty : String) (ids : List String) :
    List (String × String) :=
  if REDIS_KEY_TYPES.contains ty then
    ids.filterMap (fun id =>
      (redisGet s.redis (redisKey connectionId deviceId ty id) now).map (fun v => (id, v)))
  else
    ids.filterMap (fun id =>
      (dbFind s.db connectionId ty id).map (fun v => (id, v)))

/-! ## Credential debouncer: whaileys.ts

`credsDebounceTimers` / `pendingCredsSaves` / `saveSessionCreds` /
`debouncedSaveCreds` / `flushPendingCredsSave`, projected onto one
connection.  The credential blob is carried as a `String`.  `writes` is the
ordered list of durable writes (`saveSessionCreds` calls) performed so far. -/

structure CredsState where
  /-- The pending `setTimeout` for this connection: its delay in
  milliseconds and the creds its callback will save. -/
  timer : Option (Nat × String)
  /-- `pendingCredsSaves` entry for this connection. -/
  pending : Option String
  /-- Durable creds writes performed, in order. -/
  writes : List String
deriving Repr, DecidableEq

/-- A `CredsState` with nothing scheduled and no writes performed. -/
def emptyCredsState : CredsState := ⟨none, none, []⟩

/-- `saveSessionCreds(whatsapp, creds)`: one durable write. -/
def saveSessionCreds (s : CredsState) (creds : String) : CredsState :=
  { s with writes := s.writes ++ [creds] }

/-- `debouncedSaveCreds(whatsapp, creds, delayMs)`: clears any existing timer,
records the creds in `pendingCredsSaves`, schedules a fresh timer. -/
def debouncedSaveCreds (s : CredsState) (creds : String) (delayMs : Nat) : CredsState :=
  { timer := some (delayMs, creds), pending := some creds, writes := s.writes }

/-- The `creds.update` listener registered in `init`:
`debouncedSaveCreds(whatsapp, state.creds)` with the default 1000 ms delay. -/
def credsUpdateHandler (s : CredsState) (creds : String) : CredsState :=
  debouncedSaveCreds s creds 1000

/-- The timer callback firing: deletes the timer and the pending entry and
performs the durable write. -/
def fireCredsTimer (s : CredsState) : CredsState :=
  match s.timer with
  | some (_, creds) => { timer := none, pending := none, writes := s.writes ++ [creds] }
  | none => s

/-- `flushPendingCredsSave(sessionId)`: clears the timer, and if a pending
save exists, removes it and performs the durable write immediately. -/
def flushPendingCredsSave (s : CredsState) : CredsState :=
  match s.pending with
  | some creds => { timer := none, pending := none, writes := s.writes ++ [creds] }
  | none => { s with timer := none }

/-! ## Session registry: whaileys.ts

`sessions` and `stores` are process-wide JS `Map`s keyed by the numeric
connection id; handles and stores are carried as opaque `Nat` tokens.
`ended` records the handles whose `connection.update` listeners were removed
and whose socket got `end()` — the teardown `assertUnique` performs. -/

/-- JS `Map.get`: the value of the (at most one) entry for `k`. -/
def mapLookup (m : List (Nat × Nat)) (k : Nat) : Option Nat :=
  (m.find? (fun p => p.1 == k)).map (·.2)

/-- JS `Map.delete`: removes the entry for `k`. -/
def mapDelete (m : List (Nat × Nat)) (k : Nat) : List (Nat × Nat) :=
  m.filter (fun p => p.1 != k)

/-- JS `Map.set`: replaces any entry for `k` by `(k, v)`. -/
def mapSet (m : List (Nat × Nat)) (k v : Nat) : List (Nat × Nat) :=
  mapDelete m k ++ [(k, v)]

structure SessionRegistry where
  /-- `sessions : Map<number, Session>`. -/
  sessions : List (Nat × Nat)
  /-- `stores : Map<number, Store>`. -/
  stores : List (Nat × Nat)
  /-- Handles torn down by `assertUnique` (listeners removed, `end()` called),
  in order. -/
  ended : List Nat
deriving Repr, DecidableEq

/-- The registry at process start. -/
def emptyRegistry : SessionRegistry := ⟨[], [], []⟩

/-- `assertUnique(sessionId)`: if a live handle exists for the id, remove its
`connection.update` listeners, evict it from both maps and `end()` it. -/
def assertUnique (r : SessionRegistry) (sessionId : Nat) : SessionRegistry :=
  match mapLookup r.sessions sessionId with
  | some wbot =>
      { sessions := mapDelete r.sessions sessionId,
        stores := mapDelete r.stores sessionId,
        ended := r.ended ++ [wbot] }
  | none => r

/-- The registry effect of one `init(whatsapp)` call: `stores.set` with the
fresh store, then `assertUnique(sessionId)`, then `sessions.set` with the
fresh socket handle (`makeWASocket` is synchronous, so nothing interleaves
between the teardown and the insertion). -/
def initSession (r : SessionRegistry) (sessionId freshStore freshWbot : Nat) :
    SessionRegistry :=
  let r1 : SessionRegistry := { r with stores := mapSet r.stores sessionId freshStore }
  let r2 := assertUnique r1 sessionId
  { r2 with sessions := mapSet r2.sessions sessionId freshWbot }

/-- A sequence of `init` calls, each given as `(sessionId, fresh handle)`. -/
def runInits (r : SessionRegistry) (calls : List (Nat × Nat)) : SessionRegistry :=
  calls.foldl (fun acc p => initSession acc p.1 p.2 p.2) r

/-! ## Connection state machine: the `connection.update` handler and
`logout` of whaileys.ts, as traces of the externally visible actions they
perform, in program order. -/

inductive WhaileysAction where
  /-- `await flushPendingCredsSave(sessionId)`. -/
  | flushCreds
  /-- `whatsapp.update({status, qrcode?, retries?, session?})`. -/
  | statusUpdate (status : String) (qrcode : Option String) (retries : Option Nat)
      (session : Option String)
  /-- `io.emit("whatsappSession", ...)`. -/
  | emitSession
  /-- `clearSessionKeys(sessionId)` (Redis pattern purge). -/
  | clearKeys
  /-- The listener/socket teardown portion of `removeSession`. -/
  | teardown
  /-- `sleep(ms)`. -/
  | sleepMs (ms : Nat)
  /-- The recursive `init(whatsapp)` reconnect call. -/
  | initCall
  /-- `wbot.logout()`. -/
  | wbotLogout
deriving Repr, DecidableEq

/-- `DisconnectReason.loggedOut` of the whaileys library (Boom status 401). -/
def DisconnectReason_loggedOut : Nat := 401

/-- `removeSession(whatsappId)`: flushes the pending creds save first, then
tears the handle down and evicts it. -/
def removeSessionTrace : List WhaileysAction :=
  [.flushCreds, .teardown]

/-- One `connection.update` event as the handler reads it. -/
structure ConnectionUpdate where
  connection : Option String
  statusCode : Option Nat
  errorMessage : String
  qr : Option String
deriving Repr, DecidableEq

/-- The trailing `if (qr !== undefined)` block of the handler. -/
def qrTrace : Option String → List WhaileysAction
  | some q => [.statusUpdate "qrcode" (some q) none none, .emitSession]
  | none => []

/-- The `connection.update` handler of `init`, as the ordered list of actions
it performs for one event. -/
def connectionUpdateHandler (u : ConnectionUpdate) : List WhaileysAction :=
  if u.connection = some "close" ∧ u.errorMessage = "Intentional Logout" then
    [.statusUpdate "DISCONNECTED" (some "") (some 0) none, .emitSession, .clearKeys]
      ++ removeSessionTrace
  else if u.connection = some "close" ∧ u.statusCode = some DisconnectReason_loggedOut then
    [.statusUpdate "DISCONNECTED" (some "") (some 0) none, .emitSession]
      ++ removeSessionTrace
  else
    (if u.connection = some "close" then
      [.flushCreds, .statusUpdate "OPENING" none none none, .emitSession,
       .sleepMs 3000, .initCall]
     else [])
    ++ (if u.connection = some "open" then
      [.flushCreds, .statusUpdate "CONNECTED" (some "") (some 0) none, .emitSession]
     else [])
    ++ qrTrace u.qr

/-- `logout(sessionId)`: flush, then `wbot.logout()` when a handle exists,
then `removeSession` (which flushes again), then the DISCONNECTED update,
notification and Redis purge. -/
def logoutTrace (hasSession : Bool) : List WhaileysAction :=
  [.flushCreds]
    ++ (if hasSession then [.wbotLogout] else [])
    ++ removeSessionTrace
    ++ [.statusUpdate "DISCONNECTED" (some "") (some 0) (some ""), .emitSession, .clearKeys]

/-! ## Provider contract types (providers/WhatsApp/types) -/

/-- The canonical `ProviderMessage`.  `ty` is the `type` field ("chat" |
"audio" | "ptt" | "video" | "image" | "document" | "vcard" | "sticker" |
"location"); `ack` is 0=pending … 4=played.  `from` is a Lean keyword, so
the field is `fromJid` / `toJid`. -/
structure ProviderMessage where
  id : String
  body : String
  fromMe : Bool
  hasMedia : Bool
  ty : String
  timestamp : Nat
  fromJid : String
  toJid : String
  hasQuotedMsg : Option Bool
  quotedMsgId : Option String
  ack : Option Nat
deriving Repr, DecidableEq

/-! ## whaileys.ts: jid helpers and network-facing operations

Network calls (`wbot.sendMessage`, `wbot.onWhatsApp`) are oracles passed in;
each operation also returns the list of network sends it performed, so that
"fails before any network send" is expressible. -/

/-- `s.endsWith suffix`, computed over the character lists. -/
def strEndsWith (s suffix : String) : Bool :=
  List.isSuffixOf suffix.toList s.toList

/-- `s.startsWith pre`, computed over the character lists. -/
def strStartsWith (s pre : String) : Bool :=
  List.isPrefixOf pre.toList s.toList

/-- `normalizeJid`: bare numbers get `@s.whatsapp.net`, a `@c.us` suffix is
rewritten to `@s.whatsapp.net`. -/
def normalizeJid (jid : String) : String :=
  if jid = "" then jid
  else if ¬ (jid.toList.contains '@') then jid ++ "@s.whatsapp.net"
  else if strEndsWith jid "@c.us" then
    String.mk (jid.toList.take (jid.toList.length - 5)) ++ "@s.whatsapp.net"
  else jid

/-- What the embedding keeps of the library's sent-message result
(`sentMsg.key.id` and `sentMsg.messageTimestamp`). -/
structure WASentMsg where
  keyId : Option String
  messageTimestamp : Option Nat
deriving Repr, DecidableEq

/-- whaileys `sendMessage(sessionId, to, body, options?)`.  Returns the
network sends performed (destination jid, body) and the result. -/
def whaileysSendMessage (sessions : List (Nat × Nat)) (sessionId : Nat)
    (toArg body : String) (net : String → String → WASentMsg) (nowMs : Nat)
    (userId : String) : List (String × String) × Except String ProviderMessage :=
  match mapLookup sessions sessionId with
  | none => ([], .error "ERR_WAPP_NOT_INITIALIZED")
  | some _ =>
    let toJid := normalizeJid toArg
    let sentMsg := net toJid body
    match sentMsg.keyId with
    | none => ([(toJid, body)], .error "ERR_SENDING_WAPP_MSG")
    | some kid =>
      ([(toJid, body)],
       .ok { id := kid, body := body, fromMe := true, hasMedia := false, ty := "chat",
             timestamp := sentMsg.messageTimestamp.getD nowMs,
             fromJid := userId, toJid := toArg,
             hasQuotedMsg := none, quotedMsgId := none, ack := some 1 })

/-- JS string truthiness on optional strings: `undefined` and `""` are falsy. -/
def jsTruthy : Option String → Option String
  | some s => if s = "" then none else some s
  | none => none

/-- The media input of `sendMedia`; `hasData` stands for
`media.path ? readFileSync(media.path) : media.data` being present. -/
structure ProviderMediaInput where
  filename : String
  mimetype : String
  hasData : Bool
deriving Repr, DecidableEq

/-- The `type` chosen by `buildPayload` in whaileys `sendMedia`. -/
def whaileysMediaType (mimetype : String) (sendAudioAsVoice : Bool) : String :=
  if strStartsWith mimetype "image/" then "image"
  else if strStartsWith mimetype "video/" then "video"
  else if strStartsWith mimetype "audio/" then
    (if sendAudioAsVoice then "ptt" else "audio")
  else "document"

/-- whaileys `sendMedia(sessionId, to, media, options?)`. -/
def whaileysSendMedia (sessions : List (Nat × Nat)) (sessionId : Nat)
    (toArg : String) (media : ProviderMediaInput) (caption : Option String)
    (sendAudioAsVoice : Bool) (net : String → WASentMsg) (nowMs : Nat)
    (userId : String) : List String × Except String ProviderMessage :=
  match mapLookup sessions sessionId with
  | none => ([], .error "ERR_WAPP_NOT_INITIALIZED")
  | some _ =>
    if ¬ media.hasData then ([], .error "ERR_NO_MEDIA_DATA")
    else
      let toJid := normalizeJid toArg
      let sent := net toJid
      match sent.keyId with
      | none => ([toJid], .error "ERR_SENDING_WAPP_MEDIA_MSG")
      | some kid =>
        ([toJid],
         .ok { id := kid, body := (jsTruthy caption).getD media.filename,
               fromMe := true, hasMedia := true,
               ty := whaileysMediaType media.mimetype sendAudioAsVoice,
               timestamp := sent.messageTimestamp.getD nowMs,
               fromJid := userId, toJid := toArg,
               hasQuotedMsg := none, quotedMsgId := none, ack := some 1 })

/-- The first element of `wbot.onWhatsApp(cleanNumber)`:
`{exists, jid}` (`exists` is a Lean keyword, hence `numExists`). -/
structure OnWhatsAppResult where
  numExists : Bool
  jid : String
deriving Repr, DecidableEq

/-- `number.replace(/\D/g, "")`. -/
def digitsOnly (s : String) : String := String.mk (s.toList.filter Char.isDigit)

/-- whaileys `checkNumber(sessionId, number)`: strips non-digits, asks the
network, throws `ERR_NUMBER_NOT_ON_WHATSAPP` (404) unless `result?.exists`. -/
def whaileysCheckNumber (sessions : List (Nat × Nat)) (sessionId : Nat)
    (number : String) (net : String → Option OnWhatsAppResult) :
    Except String String :=
  match mapLookup sessions sessionId with
  | none => .error "ERR_WAPP_NOT_INITIALIZED"
  | some _ =>
    match net (digitsOnly number) with
    | some result =>
        if result.numExists then .ok result.jid
        else .error "ERR_NUMBER_NOT_ON_WHATSAPP"
    | none => .error "ERR_NUMBER_NOT_ON_WHATSAPP"

/-! ## wwebjs implementation (the second provider behind the contract) -/

/-- A whatsapp-web.js `Message` as the wwebjs implementation reads it
(`id.id`, `body`, `fromMe`, `hasMedia`, `type`, `timestamp`, `from`, `to`,
`hasQuotedMsg`, `ack`). -/
structure WbotMessage where
  idId : String
  body : String
  fromMe : Bool
  hasMedia : Bool
  ty : String
  timestamp : Nat
  fromField : String
  toField : String
  hasQuotedMsg : Bool
  ack : Int
deriving Repr, DecidableEq

/-- wwebjs `mapMessageType`: identity on the nine known types, else "chat". -/
def mapMessageTypeW (wbotType : String) : String :=
  if ["chat", "audio", "ptt", "video", "image", "document", "vcard", "sticker",
      "location"].contains wbotType then wbotType else "chat"

/-- wwebjs `mapMessageAck`: `ackMap[wbotAck] || 0` — 1..4 map to themselves,
everything else (including 0 and the library's -1) to 0. -/
def mapMessageAckW (wbotAck : Int) : Nat :=
  if wbotAck = 1 then 1
  else if wbotAck = 2 then 2
  else if wbotAck = 3 then 3
  else if wbotAck = 4 then 4
  else 0

/-- wwebjs `convertToProviderMessage`: field-for-field conversion — `fromMe`
and `ack` are passed through from the library message. -/
def convertToProviderMessage (m : WbotMessage) : ProviderMessage :=
  { id := m.idId, body := m.body, fromMe := m.fromMe, hasMedia := m.hasMedia,
    ty := mapMessageTypeW m.ty, timestamp := m.timestamp,
    fromJid := m.fromField, toJid := m.toField,
    hasQuotedMsg := some m.hasQuotedMsg, quotedMsgId := none,
    ack := some (mapMessageAckW m.ack) }

/-- The wwebjs session array: the (optional) ids of the `Session` objects.
`getWbot` finds the index with `s.id === whatsappId`. -/
def wwebjsHasSession (sessionsW : List (Option Nat)) (whatsappId : Nat) : Bool :=
  sessionsW.any (fun i => i == some whatsappId)

/-- wwebjs `sendMessage(sessionId, to, body, options?)`: throws
`ERR_WAPP_NOT_INITIALIZED` without touching the network when no session
matches, otherwise sends and converts the library's sent message. -/
def wwebjsSendMessage (sessionsW : List (Option Nat)) (sessionId : Nat)
    (toArg body : String) (net : String → String → WbotMessage) :
    List (String × String) × Except String ProviderMessage :=
  if wwebjsHasSession sessionsW sessionId then
    ([(toArg, body)], .ok (convertToProviderMessage (net toArg body)))
  else ([], .error "ERR_WAPP_NOT_INITIALIZED")

/-- wwebjs `sendMedia(sessionId, to, media, options?)`: `getWbot` throws
`ERR_WAPP_NOT_INITIALIZED` without touching the network when no session
matches; otherwise it builds the `MessageMedia` and send options — an image
whose filename fails the `/^.*\.(jpe?g|png|gif)?$/i` test (the oracle
`filenameImageExt`) gets `sendMediaAsDocument = options?.sendMediaAsDocument
|| true` — sends, and converts the library's sent message through
`convertToProviderMessage` (`fromMe` and `ack` passed through).  The network
oracle `net` receives the destination and the document flag. -/
def wwebjsSendMedia (sessionsW : List (Option Nat)) (sessionId : Nat)
    (toArg : String) (media : ProviderMediaInput) (caption : Option String)
    (sendAudioAsVoice sendMediaAsDocumentOpt filenameImageExt : Bool)
    (net : String → Bool → WbotMessage) :
    List String × Except String ProviderMessage :=
  if wwebjsHasSession sessionsW sessionId then
    let sendAsDoc :=
      if strStartsWith media.mimetype "image/" && ! filenameImageExt then
        (sendMediaAsDocumentOpt || true)
      else sendMediaAsDocumentOpt
    ([toArg], .ok (convertToProviderMessage (net toArg sendAsDoc)))
  else ([], .error "ERR_WAPP_NOT_INITIALIZED")

/-- wwebjs `checkNumber(sessionId, number)`:
`(await wbot.getNumberId(number@c.us))?.user || ""` — no error for an
unregistered number, just the empty string. -/
def wwebjsCheckNumber (sessionsW : List (Option Nat)) (sessionId : Nat)
    (number : String) (net : String → Option String) : Except String String :=
  if wwebjsHasSession sessionsW sessionId then
    .ok ((jsTruthy (net (number ++ "@c.us"))).getD "")
  else .error "ERR_WAPP_NOT_INITIALIZED"

/-! ## whaileys.ts: inbound message model and normalization helpers

A `WAMessage` is kept as the content variants `getMessageBody` /
`mapMessageType` / `hasMedia` / `shouldHandleMessage` actually read.
Captions and texts use `String` with `""` for a missing field (the source
applies `|| ""`); the location name keeps its JS optionality. -/

inductive WAContent where
  | conversation (text : String)
  | extendedTextMessage (text : String)
  | imageMessage (caption : String)
  | videoMessage (caption : String)
  | audioMessage (ptt : Bool)
  | documentMessage (caption : String)
  | stickerMessage
  | locationMessage (nameField : Option String) (lat lng : String)
  | contactMessage (vcard : String)
  | contactsArrayMessage (vcards : List String)
  | otherContent (typeName : String)
deriving Repr, DecidableEq

structure WAMessageM where
  /-- `msg.message` (`none` when absent). -/
  content : Option WAContent
  /-- `msg.key.fromMe`. -/
  fromMe : Bool
  /-- `msg.key.remoteJid`. -/
  remoteJid : String
  /-- `msg.key.id`. -/
  keyId : Option String
deriving Repr, DecidableEq

/-- The library's `getContentType` on `msg.message`. -/
def getContentType : Option WAContent → Option String
  | none => none
  | some c =>
    some (match c with
      | .conversation _ => "conversation"
      | .extendedTextMessage _ => "extendedTextMessage"
      | .imageMessage _ => "imageMessage"
      | .videoMessage _ => "videoMessage"
      | .audioMessage _ => "audioMessage"
      | .documentMessage _ => "documentMessage"
      | .stickerMessage => "stickerMessage"
      | .locationMessage _ _ _ => "locationMessage"
      | .contactMessage _ => "contactMessage"
      | .contactsArrayMessage _ => "contactsArrayMessage"
      | .otherContent t => t)

/-- The Google-Maps link built by both providers:
`https://maps.google.com/maps?q=${lat}%2C${lng}&z=17&hl=pt-BR`. -/
def gmapsUrl (lat lng : String) : String :=
  "https://maps.google.com/maps?q=" ++ lat ++ "%2C" ++ lng ++ "&z=17&hl=pt-BR"

/-- `location.name || "lat, lng"` (an empty name is falsy in JS). -/
def locationDescription (nameField : Option String) (lat lng : String) : String :=
  match jsTruthy nameField with
  | some n => n
  | none => lat ++ ", " ++ lng

/-- whaileys `getMessageBody`: texts, captions, vcards joined by newline, and
for locations the pipe-delimited `link|description` body. -/
def getMessageBody (msg : WAMessageM) : String :=
  match msg.content with
  | some (.conversation t) => t
  | some (.extendedTextMessage t) => t
  | some (.imageMessage c) => c
  | some (.videoMessage c) => c
  | some (.documentMessage c) => c
  | some (.contactMessage v) => v
  | some (.contactsArrayMessage vs) => String.intercalate "\n" vs
  | some (.locationMessage nameField lat lng) =>
      gmapsUrl lat lng ++ "|" ++ locationDescription nameField lat lng
  | _ => ""

/-- whaileys `hasMedia`. -/
def hasMediaM (msg : WAMessageM) : Bool :=
  ["imageMessage", "videoMessage", "audioMessage", "documentMessage",
   "stickerMessage"].contains ((getContentType msg.content).getD "")

/-- The `typeMap` of whaileys `mapMessageType` with its `|| "chat"` default. -/
def typeMapW (t : String) : String :=
  if t = "conversation" then "chat"
  else if t = "extendedTextMessage" then "chat"
  else if t = "imageMessage" then "image"
  else if t = "videoMessage" then "video"
  else if t = "audioMessage" then "audio"
  else if t = "documentMessage" then "document"
  else if t = "stickerMessage" then "sticker"
  else if t = "locationMessage" then "location"
  else if t = "contactMessage" then "vcard"
  else if t = "contactsArrayMessage" then "vcard"
  else "chat"

/-- whaileys `mapMessageType`: the push-to-talk flag turns an audio message
into "ptt", otherwise the fixed `typeMap`. -/
def mapMessageType (msg : WAMessageM) : String :=
  match msg.content with
  | some (.audioMessage ptt) => if ptt then "ptt" else "audio"
  | _ => typeMapW ((getContentType msg.content).getD "")

/-- The regex test on `body[0]`: true exactly when the body's first character
is U+200E (on an empty body, `body[0]` is `undefined` and the test is false). -/
def bodyStartsWithMarker (body : String) : Bool :=
  match body.toList with
  | [] => false
  | c :: _ => c == '\u200E'

/-- `validTypes` of whaileys `shouldHandleMessage`. -/
def validTypes : List String :=
  ["conversation", "extendedTextMessage", "imageMessage", "videoMessage",
   "audioMessage", "documentMessage", "stickerMessage", "locationMessage",
   "contactMessage", "contactsArrayMessage"]

/-- `allowedFromMeTypes` of whaileys `shouldHandleMessage`. -/
def allowedFromMeTypes : List String :=
  ["locationMessage", "conversation", "extendedTextMessage", "contactMessage"]

/-- whaileys `shouldHandleMessage`. -/
def shouldHandleMessage (msg : WAMessageM) : Bool :=
  let messageType := (getContentType msg.content).getD ""
  if ¬ validTypes.contains messageType then false
  else if bodyStartsWithMarker (getMessageBody msg) then false
  else if ¬ msg.fromMe then true
  else hasMediaM msg || allowedFromMeTypes.contains messageType

/-- The library's `isJidBroadcast` (a jid ending in `@broadcast`), as used by
the `shouldIgnoreJid` socket option. -/
def isJidBroadcast (jid : String) : Bool := strEndsWith jid "@broadcast"

/-- The `shouldIgnoreJid` socket option of whaileys `init`: such jids are
dropped by the socket before any message event fires. -/
def shouldIgnoreJid (jid : String) : Bool :=
  isJidBroadcast jid || strEndsWith jid "newsletter" || jid == "status@broadcast"

/-- The whaileys inbound filter as a whole: the socket-level jid filter
followed by `shouldHandleMessage`. -/
def whaileysInboundAccepts (msg : WAMessageM) : Bool :=
  ¬ shouldIgnoreJid msg.remoteJid && shouldHandleMessage msg

/-! ## wwebjs: inbound filter and location rewrite -/

/-- wwebjs `shouldHandleMessage` over the library message. -/
def shouldHandleMessageW (m : WbotMessage) : Bool :=
  if m.fromField == "status@broadcast" then false
  else if ¬ ["chat", "audio", "ptt", "video", "image", "document", "vcard",
             "sticker", "location"].contains m.ty then false
  else if bodyStartsWithMarker m.body then false
  else if m.fromMe &&
      (¬ m.hasMedia && m.ty ≠ "location" && m.ty ≠ "chat" && m.ty ≠ "vcard") then false
  else true

/-- A whatsapp-web.js `Location` (`latitude`, `longitude`, `description`). -/
structure WbotLocation where
  latitude : String
  longitude : String
  description : Option String
deriving Repr, DecidableEq

/-- wwebjs `prepareLocation`: the rewritten body is
`data:image/png;base64,${body}|${gmapsUrl}|${description-or-coordinates}`. -/
def prepareLocationBody (body : String) (loc : WbotLocation) : String :=
  "data:image/png;base64," ++ body ++ "|" ++ gmapsUrl loc.latitude loc.longitude
    ++ "|" ++ locationDescription loc.description loc.latitude loc.longitude

/-! ## CreateOrUpdateContactService.ts

Contacts and tickets live in Sequelize tables; a contact's `number` may be
NULL (modelled as `""`) and `lid` is nullable.  `Contact.findOne` returns
the first matching row. -/

structure ContactRec where
  id : Nat
  name : String
  number : String
  lid : Option String
  profilePicUrl : Option String
  isGroup : Bool
deriving Repr, DecidableEq

structure TicketRec where
  id : Nat
  contactId : Nat
deriving Repr, DecidableEq

structure ContactStore where
  contacts : List ContactRec
  tickets : List TicketRec
deriving Repr, DecidableEq

/-- The request payload of `CreateOrUpdateContactService`. -/
structure ContactRequest where
  name : String
  number : String
  lid : Option String
  isGroup : Bool
  profilePicUrl : Option String
deriving Repr, DecidableEq

/-- `isGroup ? rawNumber : rawNumber.replace(/[^0-9]/g, "")`. -/
def normalizedNumber (req : ContactRequest) : String :=
  if req.isGroup then req.number else digitsOnly req.number

/-- `instance.update({...})` with a possibly-undefined `profilePicUrl`:
Sequelize skips attributes whose value is `undefined`. -/
def updatePic (old new : Option String) : Option String :=
  match new with
  | some p => some p
  | none => old

/-- Replace the contact with id `cid` by `c'` in a contact table. -/
def replaceContact (contacts : List ContactRec) (cid : Nat) (c' : ContactRec) :
    List ContactRec :=
  contacts.map (fun c => if c.id == cid then c' else c)

/-- `CreateOrUpdateContactService`.  `freshId` is the id Sequelize would give
a newly created row.  Returns the contact the service returns and the
resulting store. -/
def CreateOrUpdateContactService (s : ContactStore) (req : ContactRequest)
    (freshId : Nat) : Except String (ContactRec × ContactStore) :=
  let number := normalizedNumber req
  let lidQ := jsTruthy req.lid
  if number = "" ∧ lidQ = none then
    .error "Either number or lid must be provided"
  else
    let contactByNumber : Option ContactRec :=
      if number = "" then none else s.contacts.find? (fun c => c.number == number)
    let contactByLid : Option ContactRec :=
      match lidQ with
      | some l => s.contacts.find? (fun c => c.lid == some l)
      | none => none
    let numberBranch := fun (a : ContactRec) =>
      let a' : ContactRec :=
        { a with lid := (match lidQ with | some l => some l | none => a.lid),
                 profilePicUrl := updatePic a.profilePicUrl req.profilePicUrl }
      (a', { s with contacts := replaceContact s.contacts a.id a' })
    match contactByNumber, contactByLid with
    | some a, some b =>
      if a.id = b.id then .ok (numberBranch a)
      else
        -- merge: move b's tickets to a, destroy b, put b's lid on a
        let tickets' := s.tickets.map (fun (t : TicketRec) =>
          if t.contactId == b.id then { t with contactId := a.id } else t)
        let a' : ContactRec :=
          { a with lid := b.lid,
                   profilePicUrl := updatePic a.profilePicUrl req.profilePicUrl }
        let contacts' :=
          replaceContact (s.contacts.filter (fun c => c.id != b.id)) a.id a'
        .ok (a', { contacts := contacts', tickets := tickets' })
    | some a, none => .ok (numberBranch a)
    | none, some b =>
      let b' : ContactRec :=
        { b with number := (if number = "" then b.number else number),
                 profilePicUrl := updatePic b.profilePicUrl req.profilePicUrl }
      .ok (b', { s with contacts := replaceContact s.contacts b.id b' })
    | none, none =>
      let created : ContactRec :=
        { id := freshId, name := req.name, number := number, lid := lidQ,
          profilePicUrl := req.profilePicUrl, isGroup := req.isGroup }
      .ok (created, { s with contacts := s.contacts ++ [created] })

/-! ## handleWhatsappEvents.ts: `handleMessageAck` -/

/-- A stored `Message` row as the ack handler touches it. -/
structure MessageRec where
  id : String
  ack : Nat
  ticketId : Nat
deriving Repr, DecidableEq

/-- `handleMessageAck(messageId, ack)`: looks the message up by primary key;
when absent it returns silently (no update, no `appMessage` emission, the
surrounding try/catch swallows any error).  Returns the new table and the
list of `(ticketId, action)` socket emissions. -/
def handleMessageAck (msgs : List MessageRec) (messageId : String) (ack : Nat) :
    List MessageRec × List (Nat × String) :=
  match msgs.find? (fun m => m.id == messageId) with
  | none => (msgs, [])
  | some m =>
    (msgs.map (fun x => if x.id == messageId then { x with ack := ack } else x),
     [(m.ticketId, "update")])

/-- Observer: the pipe-delimited fields of a canonical body. -/
def splitOnPipe (s : String) : List String :=
  (s.toList.splitOn '|').map String.mk

/-! ## Concrete example inputs -/

/-- The key store after `set(connectionId 1, deviceId 1, "identity-key",
"k1", "A")` on the empty store. -/
def c3StoreA : KeyStoreState :=
  StoreWppSessionKeys emptyKeyStore 0 1 1 "identity-key" "k1" "A"

/-- …and after a further `set(connectionId 1, deviceId 2, "identity-key",
"k1", "B")` — same connection, a different device. -/
def c3StoreB : KeyStoreState :=
  StoreWppSessionKeys c3StoreA 0 1 2 "identity-key" "k1" "B"

/-- A freshly sent whatsapp-web.js message as the library returns it right
after `wbot.sendMessage`: `fromMe`, but still `ack = 0` (queued, not yet
acknowledged by the server). -/
def c5WbotMsg : WbotMessage :=
  { idId := "3EB0A1B2", body := "hello", fromMe := true, hasMedia := false,
    ty := "chat", timestamp := 1700000000,
    fromField := "5511999999999@c.us", toField := "5511888888888@c.us",
    hasQuotedMsg := false, ack := 0 }

/-- A self-sent multi-contact card: canonical type "vcard" (a contact-card
type), no media, sent on a normal user chat. -/
def c7FromMeVcardArray : WAMessageM :=
  { content := some (.contactsArrayMessage ["BEGIN:VCARD END:VCARD"]),
    fromMe := true, remoteJid := "5511999999999@s.whatsapp.net",
    keyId := some "K1" }

/-- Contact matched by number in the C9 witness store. -/
def c9ContactA : ContactRec :=
  { id := 1, name := "Alice", number := "5511", lid := none,
    profilePicUrl := none, isGroup := false }

/-- Contact matched by lid in the C9 witness store. -/
def c9ContactB : ContactRec :=
  { id := 2, name := "Alice-lid", number := "", lid := some "99@lid",
    profilePicUrl := none, isGroup := false }

/-- A store holding both identity representations of the same person, with a
ticket attached to the lid-matched contact. -/
def c9Store : ContactStore :=
  { contacts := [c9ContactA, c9ContactB], tickets := [⟨100, 2⟩] }

/-- A contact payload carrying both the phone number and the lid. -/
def c9Req : ContactRequest :=
  { name := "Alice", number := "5511", lid := some "99@lid",
    isGroup := false, profilePicUrl := none }

/-! ## Helper lemmas -/

/-- `find?` distributes over append. -/
theorem find?_append_eq {α : Type} (p : α → Bool) (l₁ l₂ : List α) :
    (l₁ ++ l₂).find? p = ((l₁.find? p).orElse (fun _ => l₂.find? p)) := by
  induction l₁ with
  | nil => simp
  | cons a l ih =>
    cases hpa : p a with
    | true => simp [List.find?_cons, hpa]
    | false => simp [List.find?_cons, hpa, ih]

/-- `find?` skips a filter whose predicate is implied by the search
predicate. -/
theorem find?_filter_of_imp {α : Type} (p q : α → Bool) (l : List α)
    (himp : ∀ a, p a = true → q a = true) :
    (l.filter q).find? p = l.find? p := by
  induction l with
  | nil => simp
  | cons a l ih =>
    cases hpa : p a with
    | true =>
      have hq : q a = true := himp a hpa
      simp [List.filter_cons, hq, List.find?_cons, hpa]
    | false =>
      cases hqa : q a with
      | true => simp [List.filter_cons, hqa, List.find?_cons, hpa, ih]
      | false => simp [List.filter_cons, hqa, List.find?_cons, hpa, ih]

/-- After the debounced handler runs on a whole burst, the timer carries the
fixed 1000 ms delay, the pending entry the burst's last creds, and no durable
write has happened. -/
theorem foldl_credsUpdateHandler (s : CredsState) (c : String) (cs : List String) :
    (c :: cs).foldl credsUpdateHandler s
      = { timer := some (1000, cs.getLastD c), pending := some (cs.getLastD c),
          writes := s.writes } := by
  induction cs generalizing s c with
  | nil => simp [credsUpdateHandler, debouncedSaveCreds]
  | cons c' cs ih =>
    rw [List.foldl_cons, List.getLastD_cons]
    rw [show (c' :: cs).foldl credsUpdateHandler (credsUpdateHandler s c)
          = { timer := some (1000, cs.getLastD c'), pending := some (cs.getLastD c'),
              writes := (credsUpdateHandler s c).writes } from ih _ _]
    rfl

/-- `Map.set` then `Map.get` at the same key. -/
theorem mapLookup_set_self (m : List (Nat × Nat)) (k v : Nat) :
    mapLookup (mapSet m k v) k = some v := by
  unfold mapLookup mapSet mapDelete
  rw [find?_append_eq]
  have h1 : (m.filter (fun p => p.1 != k)).find? (fun p => p.1 == k) = none := by
    apply List.find?_eq_none.mpr
    intro x hx
    have h2 := (List.mem_filter.mp hx).2
    simp only [bne_iff_ne, ne_eq] at h2
    simp [h2]
  rw [h1]
  simp [List.find?_cons]

/-- The handle inserted by `initSession` is the one `sessions.get` returns. -/
theorem initSession_lookup (r : SessionRegistry) (sid st h : Nat) :
    mapLookup (initSession r sid st h).sessions sid = some h :=
  mapLookup_set_self
    ((assertUnique { r with stores := mapSet r.stores sid st } sid).sessions) sid h

/-- `init` on an id that has no live handle tears nothing down. -/
theorem initSession_fresh (r : SessionRegistry) (sid st h : Nat)
    (hnone : mapLookup r.sessions sid = none) :
    (initSession r sid st h).ended = r.ended := by
  simp [initSession, assertUnique, hnone]

/-- `init` on an id with a live handle tears the old handle down (and only
it) and leaves the fresh handle registered. -/
theorem initSession_replaces (r : SessionRegistry) (sid st h hOld : Nat)
    (hcur : mapLookup r.sessions sid = some hOld) :
    (initSession r sid st h).ended = r.ended ++ [hOld]
    ∧ mapLookup (initSession r sid st h).sessions sid = some h :=
  ⟨by simp [initSession, assertUnique, hcur], initSession_lookup r sid st h⟩

/-- `assertUnique` leaves the session map alone or deletes the one entry. -/
theorem assertUnique_sessions_cases (r : SessionRegistry) (sid : Nat) :
    (assertUnique r sid).sessions = r.sessions
    ∨ (assertUnique r sid).sessions = mapDelete r.sessions sid := by
  unfold assertUnique
  cases mapLookup r.sessions sid <;> simp

/-- Key multiplicity after a `Map.set`. -/
theorem countP_mapSet (m : List (Nat × Nat)) (k v sid : Nat) :
    (mapSet m k v).countP (fun p => p.1 == sid)
      = if sid = k then 1 else m.countP (fun p => p.1 == sid) := by
  unfold mapSet mapDelete
  rw [List.countP_append]
  by_cases hsk : sid = k
  · subst hsk
    have h0 : (m.filter (fun p => p.1 != sid)).countP (fun p => p.1 == sid) = 0 := by
      rw [List.countP_eq_zero]
      intro a ha
      have h2 := (List.mem_filter.mp ha).2
      simp only [bne_iff_ne, ne_eq] at h2
      simp [h2]
    rw [h0]
    simp
  · have h1 : (m.filter (fun p => p.1 != k)).countP (fun p => p.1 == sid)
        = m.countP (fun p => p.1 == sid) := by
      rw [List.countP_filter]
      apply List.countP_congr
      intro a _
      by_cases h : a.1 = sid
      · subst h
        simp [hsk, Ne.symm]
      · simp [h]
    rw [h1]
    have h2 : ((k, v).1 == sid) = false := by
      simp
      exact fun hh => hsk hh.symm
    simp [List.countP_cons, h2, hsk]

/-- One `init` call keeps every id's multiplicity in the session map at
most 1. -/
theorem countP_initSession (r : SessionRegistry) (sid' st h sid : Nat)
    (hr : r.sessions.countP (fun p => p.1 == sid) ≤ 1) :
    (initSession r sid' st h).sessions.countP (fun p => p.1 == sid) ≤ 1 := by
  have hs : (initSession r sid' st h).sessions
      = mapSet (assertUnique { r with stores := mapSet r.stores sid' st } sid').sessions
          sid' h := rfl
  rw [hs, countP_mapSet]
  by_cases hc : sid = sid'
  · simp [hc]
  · rw [if_neg hc]
    rcases assertUnique_sessions_cases { r with stores := mapSet r.stores sid' st } sid'
      with he | he
    · rw [he]
      exact hr
    · rw [he]
      exact le_trans (List.Sublist.countP_le _ (List.filter_sublist _)) hr

/-- `runInits` keeps every id's multiplicity in the session map at most 1. -/
theorem countP_runInits (calls : List (Nat × Nat)) (sid : Nat) :
    ∀ r : SessionRegistry, r.sessions.countP (fun p => p.1 == sid) ≤ 1 →
      (runInits r calls).sessions.countP (fun p => p.1 == sid) ≤ 1 := by
  induction calls with
  | nil => intro r h; exact h
  | cons q calls ih =>
    intro r h
    simp only [runInits, List.foldl_cons]
    exact ih _ (countP_initSession r q.1 q.2 q.2 sid h)

/-- Re-initialising the same id over and over: the surviving handle is the
last one and the teardown log collects exactly all the earlier handles. -/
theorem runInits_same_id (sid : Nat) (hs : List Nat) :
    ∀ (r : SessionRegistry) (h0 : Nat), mapLookup r.sessions sid = some h0 →
      mapLookup (runInits r (hs.map (fun x => (sid, x)))).sessions sid
          = some (hs.getLastD h0)
      ∧ (runInits r (hs.map (fun x => (sid, x)))).ended
          = r.ended ++ (h0 :: hs).dropLast := by
  induction hs with
  | nil =>
    intro r h0 hcur
    exact ⟨by simpa [runInits] using hcur, by simp [runInits]⟩
  | cons x xs ih =>
    intro r h0 hcur
    have hstep := initSession_replaces r sid x x h0 hcur
    obtain ⟨ih1, ih2⟩ := ih (initSession r sid x x) x hstep.2
    constructor
    · rw [List.map_cons]
      simp only [runInits, List.foldl_cons] at ih1 ⊢
      rw [ih1, List.getLastD_cons]
    · rw [List.map_cons]
      simp only [runInits, List.foldl_cons] at ih2 ⊢
      rw [ih2, hstep.1]
      simp [List.dropLast]

/-- C1: calling `init` for an id with a live handle first tears the old
handle down (listeners removed, socket ended — recorded in `ended`) and
evicts it, and registers the new handle; the session registry never holds
more than one entry per id over any sequence of `init` calls; N `init`
calls for one id from a fresh registry leave exactly the last handle live
and exactly all the earlier ones torn down. -/
theorem c1_registry_unique :
    (∀ (r : SessionRegistry) (sid st h hOld : Nat),
        mapLookup r.sessions sid = some hOld →
        (initSession r sid st h).ended = r.ended ++ [hOld]
        ∧ mapLookup (initSession r sid st h).sessions sid = some h) ∧
    (∀ (calls : List (Nat × Nat)) (sid : Nat),
        (runInits emptyRegistry calls).sessions.countP (fun p => p.1 == sid) ≤ 1) ∧
    (∀ (sid h : Nat) (hs : List Nat),
        mapLookup (runInits emptyRegistry ((h :: hs).map (fun x => (sid, x)))).sessions sid
          = some (hs.getLastD h)
        ∧ (runInits emptyRegistry ((h :: hs).map (fun x => (sid, x)))).ended
          = (h :: hs).dropLast) := by
  refine ⟨initSession_replaces, ?_, ?_⟩
  · intro calls sid
    exact countP_runInits calls sid emptyRegistry (by simp [emptyRegistry])
  · intro sid h hs
    have hlook : mapLookup (initSession emptyRegistry sid h h).sessions sid = some h :=
      initSession_lookup _ _ _ _
    have hend : (initSession emptyRegistry sid h h).ended = [] :=
      initSession_fresh _ _ _ _ rfl
    obtain ⟨p1, p2⟩ := runInits_same_id sid hs (initSession emptyRegistry sid h h) h hlook
    constructor
    · rw [List.map_cons]
      simp only [runInits, List.foldl_cons] at p1 ⊢
      exact p1
    · rw [List.map_cons]
      simp only [runInits, List.foldl_cons] at p2 ⊢
      rw [p2, hend]
      simp [List.dropLast]

/-- C1 witness: re-initialising id 1, whose live handle is 10, with a fresh
handle 20 tears 10 down and leaves 20 as the only live handle. -/
theorem c1_registry_unique_witness :
    (initSession ⟨[(1, 10)], [(1, 10)], []⟩ 1 20 20).ended = [10]
    ∧ mapLookup (initSession ⟨[(1, 10)], [(1, 10)], []⟩ 1 20 20).sessions 1 = some 20 := by
  simpa using c1_registry_unique.1 ⟨[(1, 10)], [(1, 10)], []⟩ 1 20 20 10 rfl

/-! ## Claim theorems -/

/-- C2: every credential-change event schedules a durable write behind a
fixed 1000 ms timer and replaces (cancels) any previously scheduled one; a
burst of N ≥ 1 credential events followed by a flush produces exactly one
durable write, holding the last event's value; and the pending save is
flushed (awaited) before the reconnect `init` call, at the head of `logout`,
and before the status update to CONNECTED in the `connection === "open"`
branch of the `connection.update` handler. -/
theorem c2_creds_debounce :
    (∀ (s : CredsState) (creds : String),
        credsUpdateHandler s creds
          = { timer := some (1000, creds), pending := some creds, writes := s.writes }) ∧
    (∀ (s : CredsState) (c : String) (cs : List String),
        flushPendingCredsSave ((c :: cs).foldl credsUpdateHandler s)
          = { timer := none, pending := none, writes := s.writes ++ [cs.getLastD c] }) ∧
    (∀ u : ConnectionUpdate, u.connection = some "close" →
        u.errorMessage ≠ "Intentional Logout" →
        u.statusCode ≠ some DisconnectReason_loggedOut →
        connectionUpdateHandler u
          = [.flushCreds, .statusUpdate "OPENING" none none none, .emitSession,
             .sleepMs 3000, .initCall] ++ qrTrace u.qr) ∧
    (∀ u : ConnectionUpdate, u.connection = some "open" →
        connectionUpdateHandler u
          = [.flushCreds, .statusUpdate "CONNECTED" (some "") (some 0) none,
             .emitSession] ++ qrTrace u.qr) ∧
    (∀ b : Bool, (logoutTrace b).head? = some .flushCreds) := by
  refine ⟨fun s creds => rfl, ?_, ?_, ?_, ?_⟩
  · intro s c cs
    rw [foldl_credsUpdateHandler]
    rfl
  · intro u hclose hmsg hcode
    simp only [connectionUpdateHandler]
    rw [if_neg (by simp [hclose, hmsg]), if_neg (by simp [hclose, hcode]),
        if_pos hclose, if_neg (by simp [hclose])]
    simp
  · intro u hopen
    have hne : u.connection ≠ some "close" := by simp [hopen]
    simp only [connectionUpdateHandler]
    rw [if_neg (by simp [hne]), if_neg (by simp [hne]), if_neg (by simp [hne]),
        if_pos hopen]
    simp
  · intro b
    cases b <;> rfl

/-- C2 witness: the handler for a plain `connection: "open"` event flushes
the pending creds save before the CONNECTED status update. -/
theorem c2_creds_debounce_witness :
    connectionUpdateHandler ⟨some "open", none, "", none⟩
      = [.flushCreds, .statusUpdate "CONNECTED" (some "") (some 0) none,
         .emitSession] ++ qrTrace none :=
  c2_creds_debounce.2.2.2.1 ⟨some "open", none, "", none⟩ rfl

/-- Reading back the key just written by `setex`: present until the fixed
TTL elapses, absent afterwards. -/
theorem redisGet_setex_self (r : List RedisEntry) (key v : String) (ttl now now2 : Nat) :
    redisGet (redisSetex r key ttl v now) key now2
      = if now2 < now + ttl then some v else none := by
  unfold redisGet redisSetex
  rw [find?_append_eq]
  have h1 : (r.filter (fun e => ! (e.key == key))).find?
      (fun e => e.key == key && decide (now2 < e.expiresAt)) = none := by
    apply List.find?_eq_none.mpr
    intro e he
    have h2 := (List.mem_filter.mp he).2
    simp only [Bool.not_eq_true', beq_eq_false_iff_ne, ne_eq] at h2
    simp [h2]
  rw [h1]
  by_cases hlt : now2 < now + ttl
  · simp [List.find?_cons, hlt]
  · simp [List.find?_cons, hlt]

/-- Reading back the row just upserted. -/
theorem dbFind_upsert_self (db : List WppKeyRecord) (c : Nat) (ty id v : String) :
    dbFind (dbUpsert db c ty id v) c ty id = some v := by
  unfold dbFind dbUpsert
  rw [find?_append_eq]
  have h1 : (db.filter (fun kr => ! wppKeyMatches kr c ty id)).find?
      (fun kr => wppKeyMatches kr c ty id) = none := by
    apply List.find?_eq_none.mpr
    intro kr hkr
    have h2 := (List.mem_filter.mp hkr).2
    simp only [Bool.not_eq_true'] at h2
    simp [h2]
  rw [h1]
  simp [List.find?_cons, wppKeyMatches]

/-- An upsert leaves every other `(connectionId, type, keyId)` cell alone. -/
theorem dbFind_upsert_other (db : List WppKeyRecord) (c : Nat) (ty id v : String)
    (c' : Nat) (ty' id' : String) (hne : ¬ (c' = c ∧ ty' = ty ∧ id' = id)) :
    dbFind (dbUpsert db c ty id v) c' ty' id' = dbFind db c' ty' id' := by
  unfold dbFind dbUpsert
  rw [find?_append_eq]
  rw [find?_filter_of_imp _ _ _ (by
    intro kr hp
    simp only [wppKeyMatches, Bool.and_eq_true, beq_iff_eq] at hp
    cases hm : wppKeyMatches kr c ty id with
    | false => simp
    | true =>
      simp only [wppKeyMatches, Bool.and_eq_true, beq_iff_eq] at hm
      exact absurd
        ⟨hm.1.1 ▸ hp.1.1.symm, hm.1.2 ▸ hp.1.2.symm, hm.2 ▸ hp.2.symm⟩ hne)]
  have hnew : wppKeyMatches ⟨c, ty, id, v⟩ c' ty' id' = false := by
    cases hb : wppKeyMatches ⟨c, ty, id, v⟩ c' ty' id' with
    | false => rfl
    | true =>
      simp only [wppKeyMatches, Bool.and_eq_true, beq_iff_eq] at hb
      exact absurd ⟨hb.1.1.symm, hb.1.2.symm, hb.2.symm⟩ hne
  cases hdb : db.find? (fun kr => wppKeyMatches kr c' ty' id') with
  | some x => simp
  | none => simp [List.find?_cons, hnew]

/-- C3 (amended): hot key types (session, sender-keys, sender-key-memory)
are written to and read from the TTL cache exclusively, under the
device-scoped cache key, with the fixed 7-day (604800 s) expiry; every
other type is upserted into and read from the durable store keyed on the
3-tuple `(connectionId, type, keyId)` — `deviceId` is not part of the
durable key, and durable reads ignore both the cache and the device id. -/
theorem c3_key_routing :
    (∀ (s : KeyStoreState) (now now2 c d : Nat) (ty id v : String),
        ty ∈ REDIS_KEY_TYPES →
        (StoreWppSessionKeys s now c d ty id v).db = s.db
        ∧ redisGet (StoreWppSessionKeys s now c d ty id v).redis
            (redisKey c d ty id) now2
          = (if now2 < now + REDIS_SESSION_TTL then some v else none)) ∧
    (∀ (s : KeyStoreState) (now c d : Nat) (ty : String) (ids : List String)
        (db' : List WppKeyRecord),
        ty ∈ REDIS_KEY_TYPES →
        GetWppSessionKeys { s with db := db' } now c d ty ids
          = GetWppSessionKeys s now c d ty ids) ∧
    (∀ (s : KeyStoreState) (now c d : Nat) (ty id v : String),
        ty ∉ REDIS_KEY_TYPES →
        (StoreWppSessionKeys s now c d ty id v).redis = s.redis
        ∧ dbFind (StoreWppSessionKeys s now c d ty id v).db c ty id = some v
        ∧ (∀ (c' : Nat) (ty' id' : String), ¬ (c' = c ∧ ty' = ty ∧ id' = id) →
            dbFind (StoreWppSessionKeys s now c d ty id v).db c' ty' id'
              = dbFind s.db c' ty' id')) ∧
    (∀ (s : KeyStoreState) (now c d d' : Nat) (ty : String) (ids : List String)
        (redis' : List RedisEntry),
        ty ∉ REDIS_KEY_TYPES →
        GetWppSessionKeys { s with redis := redis' } now c d ty ids
          = GetWppSessionKeys s now c d' ty ids) := by
  refine ⟨?_, ?_, ?_, ?_⟩
  · intro s now now2 c d ty id v hty
    have htyb : REDIS_KEY_TYPES.contains ty = true := by simpa using hty
    refine ⟨by simp [StoreWppSessionKeys, hty], ?_⟩
    simp only [StoreWppSessionKeys, if_pos htyb]
    exact redisGet_setex_self _ _ _ _ _ _
  · intro s now c d ty ids db' hty
    simp [GetWppSessionKeys, hty]
  · intro s now c d ty id v hty
    have htyb : ¬ (REDIS_KEY_TYPES.contains ty = true) := by simpa using hty
    refine ⟨by simp [StoreWppSessionKeys, hty], ?_, ?_⟩
    · simp only [StoreWppSessionKeys, if_neg htyb]
      exact dbFind_upsert_self _ _ _ _ _
    · intro c' ty' id' hne
      simp only [StoreWppSessionKeys, if_neg htyb]
      exact dbFind_upsert_other _ _ _ _ _ _ _ _ hne
  · intro s now c d d' ty ids redis' hty
    simp [GetWppSessionKeys, hty]

/-- C3 witness: after a hot-type write, the database is untouched and the
cached value is readable just before the 7-day expiry and gone at it. -/
theorem c3_key_routing_witness :
    (StoreWppSessionKeys emptyKeyStore 0 1 1 "session" "s1" "V").db = emptyKeyStore.db
    ∧ redisGet (StoreWppSessionKeys emptyKeyStore 0 1 1 "session" "s1" "V").redis
        (redisKey 1 1 "session" "s1") 604799
      = (if 604799 < 0 + REDIS_SESSION_TTL then some "V" else none) :=
  c3_key_routing.1 emptyKeyStore 0 604799 1 1 "session" "s1" "V" (by decide)

/-- C3 counterexample: the claim keys the durable store on the 4-tuple
`(connectionId, deviceId, type, keyId)`, but a durable write under
`deviceId 2` overwrites the value subsequently read under `deviceId 1` for
the same `(connectionId, type, keyId)`: the durable key is the 3-tuple. -/
theorem c3_counterexample :
    GetWppSessionKeys c3StoreB 0 1 1 "identity-key" ["k1"] = [("k1", "B")]
    ∧ GetWppSessionKeys c3StoreB 0 1 1 "identity-key" ["k1"] ≠ [("k1", "A")] := by
  constructor
  · decide
  · decide

/-- C4: set-then-get round-trip for durable types returns `{id: V}`; a get
on the empty store returns the empty mapping for every type; and an id with
no stored value (durable or hot) is simply absent from any get result —
`GetWppSessionKeys` is a total function into mappings, never an error. -/
theorem c4_key_roundtrip :
    (∀ (s : KeyStoreState) (now now2 c d d2 : Nat) (ty id v : String),
        ty ∉ REDIS_KEY_TYPES →
        GetWppSessionKeys (StoreWppSessionKeys s now c d ty id v) now2 c d2 ty [id]
          = [(id, v)]) ∧
    (∀ (now c d : Nat) (ty : String) (ids : List String),
        GetWppSessionKeys emptyKeyStore now c d ty ids = []) ∧
    (∀ (s : KeyStoreState) (now c d : Nat) (ty id0 v : String) (ids : List String),
        ty ∉ REDIS_KEY_TYPES →
        dbFind s.db c ty id0 = none →
        (id0, v) ∉ GetWppSessionKeys s now c d ty ids) ∧
    (∀ (s : KeyStoreState) (now c d : Nat) (ty id0 v : String) (ids : List String),
        ty ∈ REDIS_KEY_TYPES →
        redisGet s.redis (redisKey c d ty id0) now = none →
        (id0, v) ∉ GetWppSessionKeys s now c d ty ids) := by
  refine ⟨?_, ?_, ?_, ?_⟩
  · intro s now now2 c d d2 ty id v hty
    simp [GetWppSessionKeys, StoreWppSessionKeys, hty, List.filterMap_cons,
      dbFind_upsert_self]
  · intro now c d ty ids
    by_cases hty : ty ∈ REDIS_KEY_TYPES
    · simp [GetWppSessionKeys, hty, emptyKeyStore, redisGet, List.filterMap]
    · simp [GetWppSessionKeys, hty, emptyKeyStore, dbFind, List.filterMap]
  · intro s now c d ty id0 v ids hty hnone hmem
    have htyb : ¬ (REDIS_KEY_TYPES.contains ty = true) := by simpa using hty
    simp only [GetWppSessionKeys, if_neg htyb] at hmem
    obtain ⟨a, _, hfa⟩ := List.mem_filterMap.mp hmem
    cases hdf : dbFind s.db c ty a with
    | none => rw [hdf] at hfa; simp at hfa
    | some w =>
      rw [hdf] at hfa
      simp only [Option.map_some'] at hfa
      rw [Option.some.injEq, Prod.mk.injEq] at hfa
      rw [← hfa.1] at hnone
      rw [hdf] at hnone
      exact Option.noConfusion hnone
  · intro s now c d ty id0 v ids hty hnone hmem
    have htyb : REDIS_KEY_TYPES.contains ty = true := by simpa using hty
    simp only [GetWppSessionKeys, if_pos htyb] at hmem
    obtain ⟨a, _, hfa⟩ := List.mem_filterMap.mp hmem
    cases hdf : redisGet s.redis (redisKey c d ty a) now with
    | none => rw [hdf] at hfa; simp at hfa
    | some w =>
      rw [hdf] at hfa
      simp only [Option.map_some'] at hfa
      rw [Option.some.injEq, Prod.mk.injEq] at hfa
      rw [← hfa.1] at hnone
      rw [hdf] at hnone
      exact Option.noConfusion hnone

/-- C4 witness: a concrete durable round-trip on the empty store. -/
theorem c4_key_roundtrip_witness :
    GetWppSessionKeys (StoreWppSessionKeys emptyKeyStore 0 1 1 "identity-key" "k1" "V")
      0 1 1 "identity-key" ["k1"] = [("k1", "V")] :=
  c4_key_roundtrip.1 emptyKeyStore 0 0 1 1 1 "identity-key" "k1" "V" (by decide)

/-- C5 (amended): with no live handle for the id, `sendMessage` and
`sendMedia` throw `ERR_WAPP_NOT_INITIALIZED` in both implementations before
performing any network send; every successful whaileys `sendMessage` /
`sendMedia` returns a payload with `fromMe = true` and `ack = 1`; the wwebjs
implementation instead passes the library message's `fromMe` and `ack`
through `convertToProviderMessage` unchanged (so its initial ack mirrors the
library and may be 0). -/
theorem c5_send_contract :
    (∀ (sessions : List (Nat × Nat)) (sid : Nat) (toArg body : String)
        (net : String → String → WASentMsg) (nowMs : Nat) (userId : String),
        mapLookup sessions sid = none →
        whaileysSendMessage sessions sid toArg body net nowMs userId
          = ([], .error "ERR_WAPP_NOT_INITIALIZED")) ∧
    (∀ (sessions : List (Nat × Nat)) (sid : Nat) (toArg : String)
        (media : ProviderMediaInput) (caption : Option String) (voice : Bool)
        (net : String → WASentMsg) (nowMs : Nat) (userId : String),
        mapLookup sessions sid = none →
        whaileysSendMedia sessions sid toArg media caption voice net nowMs userId
          = ([], .error "ERR_WAPP_NOT_INITIALIZED")) ∧
    (∀ (sessionsW : List (Option Nat)) (sid : Nat) (toArg body : String)
        (net : String → String → WbotMessage),
        wwebjsHasSession sessionsW sid = false →
        wwebjsSendMessage sessionsW sid toArg body net
          = ([], .error "ERR_WAPP_NOT_INITIALIZED")) ∧
    (∀ (sessions : List (Nat × Nat)) (sid : Nat) (toArg body : String)
        (net : String → String → WASentMsg) (nowMs : Nat) (userId : String)
        (tr : List (String × String)) (pm : ProviderMessage),
        whaileysSendMessage sessions sid toArg body net nowMs userId = (tr, .ok pm) →
        pm.fromMe = true ∧ pm.ack = some 1) ∧
    (∀ (sessions : List (Nat × Nat)) (sid : Nat) (toArg : String)
        (media : ProviderMediaInput) (caption : Option String) (voice : Bool)
        (net : String → WASentMsg) (nowMs : Nat) (userId : String)
        (tr : List String) (pm : ProviderMessage),
        whaileysSendMedia sessions sid toArg media caption voice net nowMs userId
          = (tr, .ok pm) →
        pm.fromMe = true ∧ pm.ack = some 1) ∧
    (∀ m : WbotMessage,
        (convertToProviderMessage m).fromMe = m.fromMe
        ∧ (convertToProviderMessage m).ack = some (mapMessageAckW m.ack)) ∧
    (∀ (sessionsW : List (Option Nat)) (sid : Nat) (toArg : String)
        (media : ProviderMediaInput) (caption : Option String)
        (voice docOpt imgExt : Bool) (net : String → Bool → WbotMessage),
        wwebjsHasSession sessionsW sid = false →
        wwebjsSendMedia sessionsW sid toArg media caption voice docOpt imgExt net
          = ([], .error "ERR_WAPP_NOT_INITIALIZED")) ∧
    (∀ (sessionsW : List (Option Nat)) (sid : Nat) (toArg : String)
        (media : ProviderMediaInput) (caption : Option String)
        (voice docOpt imgExt : Bool) (net : String → Bool → WbotMessage)
        (tr : List String) (pm : ProviderMessage),
        wwebjsSendMedia sessionsW sid toArg media caption voice docOpt imgExt net
          = (tr, .ok pm) →
        ∃ m0 : WbotMessage, pm = convertToProviderMessage m0
          ∧ pm.fromMe = m0.fromMe ∧ pm.ack = some (mapMessageAckW m0.ack)) := by
  refine ⟨?_, ?_, ?_, ?_, ?_, fun m => ⟨rfl, rfl⟩, ?_, ?_⟩
  · intro sessions sid toArg body net nowMs userId hnone
    simp [whaileysSendMessage, hnone]
  · intro sessions sid toArg media caption voice net nowMs userId hnone
    simp [whaileysSendMedia, hnone]
  · intro sessionsW sid toArg body net hfalse
    simp [wwebjsSendMessage, hfalse]
  · intro sessions sid toArg body net nowMs userId tr pm hok
    unfold whaileysSendMessage at hok
    cases hl : mapLookup sessions sid with
    | none => rw [hl] at hok; simp at hok
    | some w =>
      rw [hl] at hok
      simp only at hok
      cases hk : (net (normalizeJid toArg) body).keyId with
      | none => rw [hk] at hok; simp at hok
      | some kid =>
        rw [hk] at hok
        simp only [Prod.mk.injEq, Except.ok.injEq] at hok
        rw [← hok.2]
        exact ⟨rfl, rfl⟩
  · intro sessions sid toArg media caption voice net nowMs userId tr pm hok
    unfold whaileysSendMedia at hok
    cases hl : mapLookup sessions sid with
    | none => rw [hl] at hok; simp at hok
    | some w =>
      rw [hl] at hok
      simp only at hok
      by_cases hd : media.hasData
      · rw [if_neg (by simpa using hd)] at hok
        cases hk : (net (normalizeJid toArg)).keyId with
        | none => rw [hk] at hok; simp at hok
        | some kid =>
          rw [hk] at hok
          simp only [Prod.mk.injEq, Except.ok.injEq] at hok
          rw [← hok.2]
          exact ⟨rfl, rfl⟩
      · rw [if_pos (by simpa using hd)] at hok
        simp at hok
  · intro sessionsW sid toArg media caption voice docOpt imgExt net hfalse
    simp [wwebjsSendMedia, hfalse]
  · intro sessionsW sid toArg media caption voice docOpt imgExt net tr pm hok
    unfold wwebjsSendMedia at hok
    by_cases hs : wwebjsHasSession sessionsW sid
    · rw [if_pos hs] at hok
      simp only [Prod.mk.injEq, Except.ok.injEq] at hok
      exact ⟨_, hok.2.symm, by rw [← hok.2]; rfl, by rw [← hok.2]; rfl⟩
    · rw [if_neg hs] at hok
      simp at hok

/-- C5 witness: a missing session makes whaileys `sendMessage` fail typed
and with no network send. -/
theorem c5_send_contract_witness :
    whaileysSendMessage [] 1 "5511@c.us" "hi" (fun _ _ => ⟨some "K", some 5⟩) 0 "me"
      = ([], .error "ERR_WAPP_NOT_INITIALIZED") :=
  c5_send_contract.1 [] 1 "5511@c.us" "hi" (fun _ _ => ⟨some "K", some 5⟩) 0 "me" rfl

/-- C5 counterexample: a successful wwebjs `sendMessage` whose library
message still carries `ack = 0` (queued) yields a payload with `ack = 0`,
not an ack of at least 1 as the claim states for every successful send. -/
theorem c5_counterexample :
    wwebjsSendMessage [some 1] 1 "5511888888888@c.us" "hello" (fun _ _ => c5WbotMsg)
      = ([("5511888888888@c.us", "hello")], .ok (convertToProviderMessage c5WbotMsg))
    ∧ (convertToProviderMessage c5WbotMsg).ack = some 0
    ∧ (convertToProviderMessage c5WbotMsg).fromMe = true :=
  ⟨rfl, rfl, rfl⟩

/-- C6 (amended): the whaileys `checkNumber` returns the network's canonical
jid for a registered number and throws the typed
`ERR_NUMBER_NOT_ON_WHATSAPP` (404) error when the number has no account; the
wwebjs `checkNumber` never throws that error — it returns the resolved user
id, and the empty string for an unregistered number. -/
theorem c6_check_number :
    (∀ (sessions : List (Nat × Nat)) (sid w : Nat) (number : String)
        (net : String → Option OnWhatsAppResult) (j : String),
        mapLookup sessions sid = some w →
        net (digitsOnly number) = some ⟨true, j⟩ →
        whaileysCheckNumber sessions sid number net = .ok j) ∧
    (∀ (sessions : List (Nat × Nat)) (sid w : Nat) (number : String)
        (net : String → Option OnWhatsAppResult),
        mapLookup sessions sid = some w →
        net (digitsOnly number) = none →
        whaileysCheckNumber sessions sid number net
          = .error "ERR_NUMBER_NOT_ON_WHATSAPP") ∧
    (∀ (sessions : List (Nat × Nat)) (sid w : Nat) (number : String)
        (net : String → Option OnWhatsAppResult) (j : String),
        mapLookup sessions sid = some w →
        net (digitsOnly number) = some ⟨false, j⟩ →
        whaileysCheckNumber sessions sid number net
          = .error "ERR_NUMBER_NOT_ON_WHATSAPP") ∧
    (∀ (sessionsW : List (Option Nat)) (sid : Nat) (number : String)
        (net : String → Option String),
        wwebjsHasSession sessionsW sid = true →
        wwebjsCheckNumber sessionsW sid number net
          = .ok ((jsTruthy (net (number ++ "@c.us"))).getD "")) ∧
    (∀ (sessionsW : List (Option Nat)) (sid : Nat) (number : String)
        (net : String → Option String),
        wwebjsHasSession sessionsW sid = true →
        net (number ++ "@c.us") = none →
        wwebjsCheckNumber sessionsW sid number net = .ok "") := by
  refine ⟨?_, ?_, ?_, ?_, ?_⟩
  · intro sessions sid w number net j hl hn
    simp [whaileysCheckNumber, hl, hn]
  · intro sessions sid w number net hl hn
    simp [whaileysCheckNumber, hl, hn]
  · intro sessions sid w number net j hl hn
    simp [whaileysCheckNumber, hl, hn]
  · intro sessionsW sid number net hs
    simp [wwebjsCheckNumber, hs]
  · intro sessionsW sid number net hs hn
    simp [wwebjsCheckNumber, hs, hn, jsTruthy]

/-- C6 witness: a registered number resolves to its canonical jid in the
whaileys implementation. -/
theorem c6_check_number_witness :
    whaileysCheckNumber [(1, 10)] 1 "+55 (11) 99999-9999"
      (fun _ => some ⟨true, "5511999999999@s.whatsapp.net"⟩)
      = .ok "5511999999999@s.whatsapp.net" :=
  c6_check_number.1 [(1, 10)] 1 10 "+55 (11) 99999-9999"
    (fun _ => some ⟨true, "5511999999999@s.whatsapp.net"⟩)
    "5511999999999@s.whatsapp.net" rfl rfl

/-- C6 counterexample: for a number with no account, the wwebjs
implementation returns `.ok ""` — it does not fail with a
NumberNotRegistered error as the claim states for both implementations. -/
theorem c6_counterexample :
    wwebjsCheckNumber [some 1] 1 "5511999999999" (fun _ => none) = .ok "" :=
  rfl

/-- C7 (amended): broadcast-status traffic is rejected (in the whaileys
implementation by the socket-level `shouldIgnoreJid`, in wwebjs inside
`shouldHandleMessage`); unsupported content types and bodies starting with
U+200E are rejected; self-sent messages are accepted only when they carry
media or are location, plain-text, or single contact-card
(`contactMessage`) — a self-sent multi-contact card (`contactsArrayMessage`)
without media is rejected; every other inbound message passes. -/
theorem c7_inbound_filter :
    shouldIgnoreJid "status@broadcast" = true ∧
    (∀ msg : WAMessageM, msg.remoteJid = "status@broadcast" →
        whaileysInboundAccepts msg = false) ∧
    (∀ msg : WAMessageM, (getContentType msg.content).getD "" ∉ validTypes →
        shouldHandleMessage msg = false) ∧
    (∀ msg : WAMessageM, bodyStartsWithMarker (getMessageBody msg) = true →
        shouldHandleMessage msg = false) ∧
    (∀ msg : WAMessageM, msg.fromMe = true → hasMediaM msg = false →
        (getContentType msg.content).getD "" ∉ allowedFromMeTypes →
        shouldHandleMessage msg = false) ∧
    (∀ msg : WAMessageM, msg.fromMe = false →
        (getContentType msg.content).getD "" ∈ validTypes →
        bodyStartsWithMarker (getMessageBody msg) = false →
        shouldHandleMessage msg = true) ∧
    (∀ msg : WAMessageM, msg.fromMe = true →
        (getContentType msg.content).getD "" ∈ validTypes →
        bodyStartsWithMarker (getMessageBody msg) = false →
        (getContentType msg.content).getD "" ∈ allowedFromMeTypes →
        shouldHandleMessage msg = true) ∧
    (∀ m : WbotMessage, m.fromField = "status@broadcast" →
        shouldHandleMessageW m = false) ∧
    (∀ m : WbotMessage, m.fromMe = true → m.hasMedia = false →
        m.ty ≠ "location" → m.ty ≠ "chat" → m.ty ≠ "vcard" →
        shouldHandleMessageW m = false) ∧
    (∀ msg : WAMessageM, msg.fromMe = true →
        (getContentType msg.content).getD "" ∈ validTypes →
        bodyStartsWithMarker (getMessageBody msg) = false →
        hasMediaM msg = true →
        shouldHandleMessage msg = true) ∧
    (∀ m : WbotMessage,
        m.ty ∉ ["chat", "audio", "ptt", "video", "image", "document", "vcard",
                "sticker", "location"] →
        shouldHandleMessageW m = false) ∧
    (∀ m : WbotMessage, bodyStartsWithMarker m.body = true →
        shouldHandleMessageW m = false) ∧
    (∀ m : WbotMessage, m.fromMe = false → m.fromField ≠ "status@broadcast" →
        m.ty ∈ ["chat", "audio", "ptt", "video", "image", "document", "vcard",
                "sticker", "location"] →
        bodyStartsWithMarker m.body = false →
        shouldHandleMessageW m = true) ∧
    (∀ m : WbotMessage, m.fromMe = true → m.fromField ≠ "status@broadcast" →
        m.ty ∈ ["chat", "audio", "ptt", "video", "image", "document", "vcard",
                "sticker", "location"] →
        bodyStartsWithMarker m.body = false →
        (m.hasMedia = true ∨ m.ty = "location" ∨ m.ty = "chat" ∨ m.ty = "vcard") →
        shouldHandleMessageW m = true) := by
  refine ⟨by decide, ?_, ?_, ?_, ?_, ?_, ?_, ?_, ?_, ?_, ?_, ?_, ?_, ?_⟩
  · intro msg hj
    simp [whaileysInboundAccepts, shouldIgnoreJid, hj]
  · intro msg hty
    simp [shouldHandleMessage, hty]
  · intro msg hmark
    simp [shouldHandleMessage, hmark]
  · intro msg hfm hmedia hallow
    simp [shouldHandleMessage, hfm, hmedia, hallow]
  · intro msg hfm hty hmark
    simp [shouldHandleMessage, hty, hmark, hfm]
  · intro msg hfm hty hmark hallow
    simp [shouldHandleMessage, hty, hmark, hfm, hallow]
  · intro m hj
    simp [shouldHandleMessageW, hj]
  · intro m hfm hmedia h1 h2 h3
    simp only [shouldHandleMessageW, hfm, hmedia, h1, h2, h3]
    split
    · rfl
    · split
      · rfl
      · split
        · rfl
        · split
          · rfl
          · simp_all
  · intro msg hfm hty hmark hmedia
    simp [shouldHandleMessage, hty, hmark, hfm, hmedia]
  · intro m hty
    simp [shouldHandleMessageW, hty]
  · intro m hmark
    simp [shouldHandleMessageW, hmark]
  · intro m hfm hbc hty hmark
    simp [shouldHandleMessageW, hbc, hty, hmark, hfm]
  · intro m hfm hbc hty hmark hdisj
    rcases hdisj with h1 | h1 | h1 | h1 <;>
      simp [shouldHandleMessageW, hbc, hty, hmark, hfm, h1]

/-- C7 witness: a self-sent plain-text message passes the whaileys filter. -/
theorem c7_inbound_filter_witness :
    shouldHandleMessage
      ⟨some (.conversation "hi"), true, "5511999999999@s.whatsapp.net", some "K2"⟩
      = true :=
  c7_inbound_filter.2.2.2.2.2.2.1
    ⟨some (.conversation "hi"), true, "5511999999999@s.whatsapp.net", some "K2"⟩
    rfl (by decide) rfl (by decide)

/-- C7 counterexample: a self-sent multi-contact card — canonical type
"vcard", that is a contact-card type — with no media and no U+200E marker is
rejected by whaileys `shouldHandleMessage`, although the claim's fromMe
allow-list accepts contact-card types. -/
theorem c7_counterexample :
    mapMessageType c7FromMeVcardArray = "vcard"
    ∧ c7FromMeVcardArray.fromMe = true
    ∧ hasMediaM c7FromMeVcardArray = false
    ∧ bodyStartsWithMarker (getMessageBody c7FromMeVcardArray) = false
    ∧ shouldIgnoreJid c7FromMeVcardArray.remoteJid = false
    ∧ shouldHandleMessage c7FromMeVcardArray = false := by
  decide

/-- C8 (amended): the whaileys canonical location body is
`link|description` — map link first, description second, the description
falling back to the raw coordinates when no place name exists; the wwebjs
canonical location body is `thumbnail-data-URI|link|description`, so there
the link is the second pipe-delimited field and the description the third,
with the same coordinate fallback. -/
theorem c8_location_body :
    (∀ (nameField : Option String) (lat lng : String) (fm : Bool) (jid : String)
        (kid : Option String),
        getMessageBody ⟨some (.locationMessage nameField lat lng), fm, jid, kid⟩
          = gmapsUrl lat lng ++ "|" ++ locationDescription nameField lat lng) ∧
    (∀ lat lng : String, locationDescription none lat lng = lat ++ ", " ++ lng) ∧
    (splitOnPipe (getMessageBody ⟨some (.locationMessage none "-23.55" "-46.63"),
        false, "5511999999999@s.whatsapp.net", some "K"⟩)
      = [gmapsUrl "-23.55" "-46.63", "-23.55, -46.63"]) ∧
    (∀ (body : String) (loc : WbotLocation),
        prepareLocationBody body loc
          = "data:image/png;base64," ++ body ++ "|"
            ++ gmapsUrl loc.latitude loc.longitude ++ "|"
            ++ locationDescription loc.description loc.latitude loc.longitude) ∧
    (splitOnPipe (prepareLocationBody "THUMB" ⟨"-23.55", "-46.63", none⟩)
      = ["data:image/png;base64,THUMB", gmapsUrl "-23.55" "-46.63",
         "-23.55, -46.63"]) := by
  exact ⟨fun nameField lat lng fm jid kid => rfl, fun lat lng => rfl, by decide,
    fun body loc => rfl, by decide⟩

/-- C8 counterexample: in the wwebjs implementation the first pipe-delimited
field of a normalized location body is the thumbnail data URI, not the map
link the claim puts first. -/
theorem c8_counterexample :
    (splitOnPipe (prepareLocationBody "THUMB" ⟨"1", "2", none⟩)).head?
      = some "data:image/png;base64,THUMB"
    ∧ "data:image/png;base64,THUMB" ≠ gmapsUrl "1" "2" := by
  decide

/-- C9: when the store holds two distinct contacts — one matching the
payload's (digit-stripped) number, one matching its lid —
`CreateOrUpdateContactService` reassigns all tickets of the lid-matched
contact to the number-matched contact, destroys the lid-matched contact and
returns the number-matched contact carrying the lid; afterwards at most one
stored contact matches the given (number, lid) pair.  The uniqueness
hypotheses mirror the unique column constraints on `Contacts.number` and
`Contacts.lid`. -/
theorem c9_contact_merge (s : ContactStore) (req : ContactRequest) (freshId : Nat)
    (a b : ContactRec) (l : String)
    (hl : jsTruthy req.lid = some l)
    (hn : normalizedNumber req ≠ "")
    (ha : s.contacts.find? (fun c => c.number == normalizedNumber req) = some a)
    (hb : s.contacts.find? (fun c => c.lid == some l) = some b)
    (hab : a.id ≠ b.id)
    (uniqNum : ∀ c ∈ s.contacts, c.number = normalizedNumber req → c.id = a.id)
    (uniqLid : ∀ c ∈ s.contacts, c.lid = some l → c.id = b.id) :
    ∃ a' s', CreateOrUpdateContactService s req freshId = .ok (a', s')
      ∧ a'.id = a.id ∧ a'.lid = some l
      ∧ (∀ c ∈ s'.contacts, c.id ≠ b.id)
      ∧ (∀ c ∈ s'.contacts,
          (c.number = normalizedNumber req ∨ c.lid = some l) → c.id = a.id)
      ∧ (∀ t ∈ s.tickets, t.contactId = b.id →
          ∃ t' ∈ s'.tickets, t'.id = t.id ∧ t'.contactId = a.id)
      ∧ (∀ t' ∈ s'.tickets, t'.contactId ≠ b.id) := by
  have hblid : b.lid = some l := by simpa using List.find?_some hb
  set a' : ContactRec :=
    { a with lid := b.lid,
             profilePicUrl := updatePic a.profilePicUrl req.profilePicUrl } with ha'
  set s' : ContactStore :=
    { contacts := replaceContact (s.contacts.filter (fun c => c.id != b.id)) a.id a',
      tickets := s.tickets.map (fun (t : TicketRec) =>
        if t.contactId = b.id then { t with contactId := a.id } else t) } with hs'
  have heq : CreateOrUpdateContactService s req freshId = .ok (a', s') := by
    simp [CreateOrUpdateContactService, hl, ha, hb, hn, hab]
  refine ⟨a', s', heq, rfl, by rw [ha'] at *; simpa using hblid, ?_, ?_, ?_, ?_⟩
  · intro c hc
    obtain ⟨c0, hc0mem, hc0eq⟩ := List.mem_map.mp hc
    have hc0f := List.mem_filter.mp hc0mem
    have hc0ne : c0.id ≠ b.id := by simpa using hc0f.2
    by_cases hci : c0.id = a.id
    · rw [if_pos (by simpa using hci)] at hc0eq
      rw [← hc0eq]
      simpa using hab
    · rw [if_neg (by simpa using hci)] at hc0eq
      rw [← hc0eq]
      exact hc0ne
  · intro c hc hor
    obtain ⟨c0, hc0mem, hc0eq⟩ := List.mem_map.mp hc
    have hc0f := List.mem_filter.mp hc0mem
    have hc0ne : c0.id ≠ b.id := by simpa using hc0f.2
    by_cases hci : c0.id = a.id
    · rw [if_pos (by simpa using hci)] at hc0eq
      rw [← hc0eq]
    · rw [if_neg (by simpa using hci)] at hc0eq
      rw [← hc0eq] at hor ⊢
      cases hor with
      | inl hnum => exact uniqNum c0 hc0f.1 hnum
      | inr hlid => exact absurd (uniqLid c0 hc0f.1 hlid) hc0ne
  · intro t ht htb
    refine ⟨{ t with contactId := a.id }, ?_, rfl, rfl⟩
    rw [hs']
    exact List.mem_map.mpr ⟨t, ht, by rw [if_pos htb]⟩
  · intro t' ht'
    obtain ⟨t, htmem, hteq⟩ := List.mem_map.mp ht'
    by_cases htb : t.contactId = b.id
    · rw [if_pos htb] at hteq
      rw [← hteq]
      simpa using hab
    · rw [if_neg htb] at hteq
      rw [← hteq]
      exact htb

/-- C9 witness: merging the concrete two-contact store. -/
theorem c9_contact_merge_witness :
    ∃ a' s', CreateOrUpdateContactService c9Store c9Req 3 = .ok (a', s')
      ∧ a'.id = c9ContactA.id ∧ a'.lid = some "99@lid"
      ∧ (∀ c ∈ s'.contacts, c.id ≠ c9ContactB.id)
      ∧ (∀ c ∈ s'.contacts,
          (c.number = normalizedNumber c9Req ∨ c.lid = some "99@lid") →
          c.id = c9ContactA.id)
      ∧ (∀ t ∈ c9Store.tickets, t.contactId = c9ContactB.id →
          ∃ t' ∈ s'.tickets, t'.id = t.id ∧ t'.contactId = c9ContactA.id)
      ∧ (∀ t' ∈ s'.tickets, t'.contactId ≠ c9ContactB.id) :=
  c9_contact_merge c9Store c9Req 3 c9ContactA c9ContactB "99@lid"
    (by decide) (by decide) (by decide) (by decide) (by decide)
    (by decide) (by decide)

/-- C10: an acknowledgment event whose message id matches no stored message
leaves the message table unchanged and emits no notification — a silent
no-op (the handler's surrounding try/catch also swallows any error, so the
caller never sees one). -/
theorem c10_unknown_ack_noop (msgs : List MessageRec) (messageId : String)
    (ack : Nat) (h : ∀ m ∈ msgs, m.id ≠ messageId) :
    handleMessageAck msgs messageId ack = (msgs, []) := by
  unfold handleMessageAck
  have hf : msgs.find? (fun m => m.id == messageId) = none := by
    apply List.find?_eq_none.mpr
    intro m hm
    simpa using h m hm
  rw [hf]

/-- C10 witness: an ack for an unknown id on a one-row table. -/
theorem c10_unknown_ack_noop_witness :
    handleMessageAck [⟨"m1", 0, 7⟩] "unknown" 3 = ([⟨"m1", 0, 7⟩], []) :=
  c10_unknown_ack_noop _ _ _ (by decide)

end LeadAzul
